import Mathlib

/-!
Shallow embedding of the BiBim-Cuisine-Traiteur front end, covering the
client-side data-loading contract (Menu / Gallery / Planning section
loaders), the Planning section's map-position selection and structured
event markup, the contact form submission flow, and the contact relay
API endpoint.  Each definition is translated from the TypeScript source
file named in its doc comment.
-/

namespace BiBim

/-- Geographic coordinate, from the `location` field of `PlanningItem`
in `src/components/Planning.tsx` (`{ lat: number; lng: number }`).
Coordinates are modelled as rationals. -/
structure Location where
  lat : ℚ
  lng : ℚ
deriving DecidableEq, Repr

/-- One planning entry, from the `PlanningItem` type in
`src/components/Planning.tsx`: `_id`, `day`, `place`, `time`, optional
`location`. -/
structure PlanningItem where
  id : String
  day : String
  place : String
  time : String
  location : Option Location
deriving DecidableEq, Repr

/-- From `const nextEventWithLocation = planningItems.find(p => p.location)`
(`src/components/Planning.tsx`): the first entry, in list order, whose
`location` is defined (a defined location object is truthy in JS). -/
def nextEventWithLocation (planningItems : List PlanningItem) : Option PlanningItem :=
  planningItems.find? (fun p => p.location.isSome)

/-- From `const defaultPosition: LatLngExpression = [48.8566, 2.3522]`
(`src/components/Planning.tsx`): the Paris fallback coordinate. -/
def defaultPosition : Location := ⟨48.8566, 2.3522⟩

/-- The coordinate handed to the `Map` sub-view
(`src/components/Planning.tsx`):
`nextEventWithLocation?.location ? [lat, lng] : defaultPosition`. -/
def position (planningItems : List PlanningItem) : Location :=
  match nextEventWithLocation planningItems with
  | some p =>
    match p.location with
    | some loc => loc
    | none => defaultPosition
  | none => defaultPosition

/-- The popup text handed to the `Map` sub-view
(`src/components/Planning.tsx`): the selected event's
`place - time`, or the generic fallback when no event has a location. -/
def popupText (planningItems : List PlanningItem) : String :=
  match nextEventWithLocation planningItems with
  | some p => p.place ++ " - " ++ p.time
  | none => "Prochainement ici !"

/-- The example planning collection from the specification's example
scenario (two entries, both located). -/
def examplePlanning : List PlanningItem :=
  [ ⟨"1", "Mardi", "Marché de Lamastre", "8h-13h", some ⟨44.9865, 4.5833⟩⟩,
    ⟨"2", "Vendredi", "Place de la Mairie", "18h-22h", some ⟨44.893, 4.658⟩⟩ ]

lemma find_skips_unlocated (pre post : List PlanningItem) (p : PlanningItem)
    (hpre : ∀ q ∈ pre, q.location = none) :
    nextEventWithLocation (pre ++ p :: post) = nextEventWithLocation (p :: post) := by
  induction pre with
  | nil => rfl
  | cons q pre ih =>
    have hq : q.location = none := hpre q (List.mem_cons_self q pre)
    simp only [nextEventWithLocation, List.cons_append, List.find?]
    rw [hq]
    exact ih (fun r hr => hpre r (List.mem_cons_of_mem q hr))

lemma nextEvent_of_first (pre post : List PlanningItem) (p : PlanningItem) (loc : Location)
    (hpre : ∀ q ∈ pre, q.location = none) (hp : p.location = some loc) :
    nextEventWithLocation (pre ++ p :: post) = some p := by
  rw [find_skips_unlocated pre post p hpre]
  simp only [nextEventWithLocation, List.find?]
  rw [hp]
  rfl

lemma nextEvent_of_none (items : List PlanningItem)
    (h : ∀ q ∈ items, q.location = none) :
    nextEventWithLocation items = none := by
  induction items with
  | nil => rfl
  | cons q items ih =>
    have hq : q.location = none := h q (List.mem_cons_self q items)
    simp only [nextEventWithLocation, List.find?]
    rw [hq]
    exact ih (fun r hr => h r (List.mem_cons_of_mem q hr))

/-- A planning entry with no location, used to exercise the
first-match scan. -/
def unlocatedItem : PlanningItem := ⟨"0", "Lundi", "Nulle part", "10h", none⟩

/-- The first (located) entry of the specification's example scenario. -/
def lamastreItem : PlanningItem :=
  ⟨"1", "Mardi", "Marché de Lamastre", "8h-13h", some ⟨44.9865, 4.5833⟩⟩

/-- C1. Map position selection: the coordinate handed to the Map
sub-view is the location of the first entry, in list order, whose
location is defined, and the popup is that entry's `place - time`;
with no located entry the coordinate is the fixed Paris default and the
popup is the generic fallback; and the spec's example collection yields
coordinate (44.9865, 4.5833) with popup "Marché de Lamastre - 8h-13h". -/
theorem C1_map_position_selection :
    (∀ (pre post : List PlanningItem) (p : PlanningItem) (loc : Location),
        (∀ q ∈ pre, q.location = none) → p.location = some loc →
        position (pre ++ p :: post) = loc ∧
        popupText (pre ++ p :: post) = p.place ++ " - " ++ p.time) ∧
    (∀ items : List PlanningItem, (∀ q ∈ items, q.location = none) →
        position items = defaultPosition ∧ popupText items = "Prochainement ici !") ∧
    defaultPosition = ⟨48.8566, 2.3522⟩ ∧
    position examplePlanning = ⟨44.9865, 4.5833⟩ ∧
    popupText examplePlanning = "Marché de Lamastre - 8h-13h" := by
  refine ⟨?_, ?_, rfl, rfl, rfl⟩
  · intro pre post p loc hpre hp
    have h := nextEvent_of_first pre post p loc hpre hp
    exact ⟨by simp only [position, h, hp], by simp only [popupText, h]⟩
  · intro items h
    have hn := nextEvent_of_none items h
    exact ⟨by simp only [position, hn], by simp only [popupText, hn]⟩

/-- Witness for C1: the first-match branch evaluated on a concrete
two-entry collection whose first entry is unlocated. -/
theorem C1_map_position_selection_witness :
    position ([unlocatedItem] ++ lamastreItem :: []) = ⟨44.9865, 4.5833⟩ ∧
    popupText ([unlocatedItem] ++ lamastreItem :: []) = "Marché de Lamastre - 8h-13h" :=
  C1_map_position_selection.1 [unlocatedItem] [] lamastreItem ⟨44.9865, 4.5833⟩
    (by intro q hq; rw [List.mem_singleton] at hq; subst hq; rfl) rfl

/-- One menu entry, from the `MenuItem` interface in
`src/components/Menu.tsx` (image and category may be absent; only the
fields the loader contract touches are relevant here, so the payload is
kept abstract in the loader model below). -/
structure MenuItem where
  id : String
  name : String
  description : String
  price : ℚ
  imageUrl : Option String
  categoryName : Option String
deriving DecidableEq, Repr

/-- One gallery entry, from the `GalleryItem` interface in
`src/components/Gallery.tsx`. -/
structure GalleryItem where
  id : String
  caption : Option String
  imageUrl : String
deriving DecidableEq, Repr

/-- The local state of a section loader, from the three `useState`
hooks shared by `Menu.tsx`, `Gallery.tsx` and `Planning.tsx`:
`items`, `loading`, `error`. -/
structure SectionState (α : Type) where
  items : List α
  loading : Bool
  error : Option String
deriving DecidableEq, Repr

/-- Initial state of a section loader
(`useState(initialItems || [])`, `useState(!initialItems)`,
`useState(null)` in `Menu.tsx` / `Gallery.tsx` / `Planning.tsx`):
seeded items (or `[]`), loading exactly when no seed was supplied,
no error. -/
def initState {α : Type} (initialItems : Option (List α)) : SectionState α :=
  { items := initialItems.getD []
    loading := initialItems.isNone
    error := none }

/-- Number of fetches started by the mount effect
(`useEffect(() => { if (!initialItems) fetchItems(); }, ...)`): the
effect body runs once per mount (its dependencies — the fixed prop and
the `useCallback`-stable fetch function — never change during the
mount), so a seeded mount starts no fetch and an unseeded mount starts
exactly one. -/
def mountEffectFetches {α : Type} (initialItems : Option (List α)) : Nat :=
  match initialItems with
  | some _ => 0
  | none => 1

/-- Synchronous prefix of `fetchItems` (before the `await`):
`setLoading(true); setError(null)`. -/
def fetchStart {α : Type} (s : SectionState α) : SectionState α :=
  { s with loading := true, error := none }

/-- Settling of `fetchItems` given the awaited outcome: on success the
item collection is replaced wholesale (`setItems(data)`), on a thrown
error the fixed localized message is stored (`setError(errMsg)`); the
`finally` block clears `loading` in both cases. -/
def fetchSettle {α ε : Type} (errMsg : String) (s : SectionState α)
    (outcome : Except ε (List α)) : SectionState α :=
  match outcome with
  | Except.ok data => { s with items := data, loading := false }
  | Except.error _ => { s with error := some errMsg, loading := false }

/-- One complete run of the fetch operation (`fetchMenuItems` /
`fetchGalleryItems` / `fetchPlanningItems`), given the outcome the
awaited query settles with. -/
def runFetch {α ε : Type} (errMsg : String) (s : SectionState α)
    (outcome : Except ε (List α)) : SectionState α :=
  fetchSettle errMsg (fetchStart s) outcome

/-- The retry control's click handler: `onClick={fetchItems}` in the
error branch of each loader — it is the very same fetch operation. -/
def retryClick {α ε : Type} (errMsg : String) (s : SectionState α)
    (outcome : Except ε (List α)) : SectionState α :=
  runFetch errMsg s outcome

/-- The three mutually exclusive rendered representations of a section
loader (`if (loading) ... if (error) ... return <grid>` in each
component): the loading skeleton, the error view with its retry
control, and the loaded grid of items. -/
inductive Rendered (α : Type) where
  | loadingView
  | errorView (msg : String)
  | loadedView (items : List α)
deriving DecidableEq, Repr

/-- The render function of each loader: the loading skeleton when
`loading`, otherwise the error view when `error` is set, otherwise the
grid of the current items. -/
def render {α : Type} (s : SectionState α) : Rendered α :=
  if s.loading then Rendered.loadingView
  else
    match s.error with
    | some msg => Rendered.errorView msg
    | none => Rendered.loadedView s.items

/-- Whether the rendered output contains the "Réessayer" retry button
(present exactly in the error branch of each component). -/
def hasRetryControl {α : Type} : Rendered α → Bool
  | Rendered.errorView _ => true
  | _ => false

/-- Number of item representations in the rendered output
(`items.map(...)` in the loaded branch; the other branches render
fixed skeleton or error markup, no item representations). -/
def renderedItemCount {α : Type} : Rendered α → Nat
  | Rendered.loadedView items => items.length
  | _ => 0

/-- Whether the "nothing available" message is rendered
(`items.length === 0 && !loading && !error` inside the loaded branch
of each component). -/
def showsEmptyMessage {α : Type} : Rendered α → Bool
  | Rendered.loadedView items => items.isEmpty
  | _ => false

/-- Number of user controls in the rendered output wired to the fetch
operation: the error branch's retry button is the only element with a
click handler in any of the three components. -/
def fetchControlCount {α : Type} : Rendered α → Nat
  | Rendered.errorView _ => 1
  | _ => 0

/-- The fixed localized fetch-failure message of `Menu.tsx`. -/
def menuErrorMsg : String :=
  "Échec du chargement des éléments du menu. Veuillez réessayer."

/-- The fixed localized fetch-failure message of `Gallery.tsx`. -/
def galleryErrorMsg : String :=
  "Échec du chargement des éléments de la galerie. Veuillez réessayer."

/-- The fixed localized fetch-failure message of `Planning.tsx`. -/
def planningErrorMsg : String :=
  "Échec du chargement du planning. Veuillez réessayer."

/-- C3. Section-loader mount behaviour: with a seed supplied, the
loading flag is false from the first render, the supplied items are
rendered (never the Loading skeleton) and the mount effect starts no
fetch; with no seed, the loading flag is true, the first render is the
Loading skeleton, and the mount effect starts exactly one fetch. -/
theorem C3_section_loader_mount {α : Type} :
    (∀ seeded : List α,
        initState (some seeded) = ⟨seeded, false, none⟩ ∧
        (initState (some seeded)).loading = false ∧
        mountEffectFetches (some seeded) = 0 ∧
        render (initState (some seeded)) = Rendered.loadedView seeded ∧
        render (initState (some seeded)) ≠ Rendered.loadingView) ∧
    ((initState (none : Option (List α))).loading = true ∧
      render (initState (none : Option (List α))) = Rendered.loadingView ∧
      mountEffectFetches (none : Option (List α)) = 1) := by
  refine ⟨fun seeded => ⟨rfl, rfl, rfl, rfl, ?_⟩, rfl, rfl, rfl⟩
  intro h
  simp [render, initState] at h

/-- C4. Section-loader failure and retry: a fetch that throws leaves
the fixed error message in state and renders the error view with its
retry control; the retry control is the same fetch operation, whose
synchronous prefix clears the prior error and sets loading; the error
view carries exactly one fetch-wired control, and no view rendered
from an error-free state carries any, so no other user action can
trigger a fetch after mount. -/
theorem C4_section_loader_failure_retry {α ε : Type} :
    (∀ (errMsg : String) (s : SectionState α) (e : ε),
        runFetch errMsg s (Except.error e) = ⟨s.items, false, some errMsg⟩ ∧
        render (runFetch errMsg s (Except.error e)) = Rendered.errorView errMsg ∧
        hasRetryControl (render (runFetch errMsg s (Except.error e))) = true) ∧
    (∀ (errMsg : String) (s : SectionState α) (outcome : Except ε (List α)),
        retryClick errMsg s outcome = runFetch errMsg s outcome) ∧
    (∀ s : SectionState α,
        (fetchStart s).error = none ∧ (fetchStart s).loading = true) ∧
    (∀ msg : String, fetchControlCount (Rendered.errorView msg : Rendered α) = 1) ∧
    (∀ s : SectionState α, s.error = none → fetchControlCount (render s) = 0) := by
  refine ⟨fun errMsg s e => ⟨rfl, rfl, rfl⟩, fun errMsg s outcome => rfl,
    fun s => ⟨rfl, rfl⟩, fun msg => rfl, fun s h => ?_⟩
  cases s with
  | mk items loading error =>
    subst h
    cases loading <;> rfl

/-- Witness for C4: the no-other-fetch-trigger conjunct applied to a
concrete error-free loaded state. -/
theorem C4_section_loader_failure_retry_witness :
    fetchControlCount (render (⟨[1, 2], false, none⟩ : SectionState Nat)) = 0 :=
  (C4_section_loader_failure_retry (ε := Unit)).2.2.2.2 ⟨[1, 2], false, none⟩ rfl

/-- C5. Loaded rendering: a successful fetch returning `data` replaces
the item collection wholesale and renders exactly `data.length` item
representations; when the result is empty the "nothing available"
message is rendered, in a representation distinct from both the
Loading skeleton and the error view (neither of which ever shows the
empty message). -/
theorem C5_loaded_rendering {α ε : Type} :
    ∀ (errMsg : String) (s : SectionState α) (data : List α),
      runFetch errMsg s (Except.ok data : Except ε (List α)) = ⟨data, false, none⟩ ∧
      render (runFetch errMsg s (Except.ok data : Except ε (List α))) =
        Rendered.loadedView data ∧
      renderedItemCount (render (runFetch errMsg s (Except.ok data : Except ε (List α)))) =
        data.length ∧
      (data = [] →
        showsEmptyMessage (render (runFetch errMsg s (Except.ok data : Except ε (List α)))) =
          true) ∧
      Rendered.loadedView data ≠ (Rendered.loadingView : Rendered α) ∧
      (∀ m : String, Rendered.loadedView data ≠ (Rendered.errorView m : Rendered α)) ∧
      showsEmptyMessage (Rendered.loadingView : Rendered α) = false ∧
      (∀ m : String, showsEmptyMessage (Rendered.errorView m : Rendered α) = false) := by
  intro errMsg s data
  refine ⟨rfl, rfl, rfl, ?_, ?_, fun m h => ?_, rfl, fun m => rfl⟩
  · intro h
    subst h
    rfl
  · intro h
    simp at h
  · simp at h

/-- Witness for C5: a successful empty fetch on a concrete state
renders zero items and shows the "nothing available" message. -/
theorem C5_loaded_rendering_witness :
    renderedItemCount
      (render (runFetch menuErrorMsg (⟨[7], true, none⟩ : SectionState Nat)
        (Except.ok [] : Except Unit (List Nat)))) = 0 ∧
    showsEmptyMessage
      (render (runFetch menuErrorMsg (⟨[7], true, none⟩ : SectionState Nat)
        (Except.ok [] : Except Unit (List Nat)))) = true := by
  have h := C5_loaded_rendering (ε := Unit) menuErrorMsg (⟨[7], true, none⟩ : SectionState Nat) []
  exact ⟨h.2.2.1, h.2.2.2.1 rfl⟩

/-- The JSON body destructured by the contact relay endpoint
(`const \x7b name, email, message \x7d = await request.json()` in
`src/app/api/contact/route.ts`); each field may be absent. -/
structure ContactBody where
  name : Option String
  email : Option String
  message : Option String
deriving DecidableEq, Repr

/-- JS falsiness of a destructured JSON string field, as used by the
endpoint's `!name || !email || !message` validation: an absent field
and the empty string are both falsy. -/
def falsy : Option String → Bool
  | none => true
  | some s => s.isEmpty

/-- An HTTP response of the relay endpoint: every branch of the
handler returns `NextResponse.json(\x7b message \x7d, \x7b status \x7d)`, so a
response is a status code plus a JSON body carrying a string
`message` field. -/
structure ApiResponse where
  status : Nat
  message : String
deriving DecidableEq, Repr

/-- The `POST` handler of `src/app/api/contact/route.ts`, as a
function of the two effectful outcomes it awaits inside its `try`
block: the body parse (`request.json()`, which throws on a malformed
body — taking the `catch` path) and the mail delivery
(`transporter.sendMail`, whose thrown exception also takes the `catch`
path).  Field validation happens after the parse and before delivery:
any falsy field yields the fixed 400 response. -/
def POST {ε₁ ε₂ : Type} (body : Except ε₁ ContactBody)
    (delivery : Except ε₂ Unit) : ApiResponse :=
  match body with
  | Except.error _ => ⟨500, "Internal server error"⟩
  | Except.ok b =>
    if falsy b.name || falsy b.email || falsy b.message then
      ⟨400, "Missing required fields"⟩
    else
      match delivery with
      | Except.ok _ => ⟨200, "Message sent successfully!"⟩
      | Except.error _ => ⟨500, "Internal server error"⟩

/-- The contact form's field record (`FormData` in
`src/components/Contact.tsx`); the fields are plain strings
initialised to `""`. -/
structure FormData where
  name : String
  email : String
  message : String
deriving DecidableEq, Repr

/-- The cleared form written after a successful submission
(`setFormData(\x7b name: \x27\x27, email: \x27\x27, message: \x27\x27 \x7d)`). -/
def emptyForm : FormData := ⟨"", "", ""⟩

/-- The contact component's local state: the three `useState` hooks of
`src/components/Contact.tsx` (`formData`, `isSubmitting`,
`submitMessage`). -/
structure ContactState where
  formData : FormData
  isSubmitting : Bool
  submitMessage : Option String
deriving DecidableEq, Repr

/-- Outcome of the awaited `fetch` call in `handleSubmit`: a 2xx
response, a non-2xx response whose parsed body may or may not carry a
`message` field, or a thrown error (network failure, or a body that
fails to parse). -/
inductive FetchOutcome where
  | okResponse
  | errorResponse (serverMessage : Option String)
  | thrown
deriving DecidableEq, Repr

/-- The client-side validation message of `Contact.tsx`. -/
def validationMsg : String := "Veuillez remplir tous les champs obligatoires."

/-- The success message of `Contact.tsx`. -/
def successMsg : String := "Votre message a été envoyé avec succès !"

/-- The generic error message of `Contact.tsx`, used when the error
response carries no usable `message` field. -/
def genericErrorMsg : String := "Une erreur est survenue lors de l\x27envoi du message."

/-- The network-failure message of the `catch` branch of
`Contact.tsx`. -/
def networkErrorMsg : String := "Une erreur réseau est survenue. Veuillez réessayer plus tard."

/-- Models `errorData.message || genericErrorMsg`: the server-supplied
message when present and non-empty (truthy), the generic one
otherwise. -/
def serverOrGeneric : Option String → String
  | some m => if m.isEmpty then genericErrorMsg else m
  | none => genericErrorMsg

/-- The `handleSubmit` handler of `src/components/Contact.tsx`, as a
function of the fetch outcome; returns the resulting state together
with whether a network request was issued.  It resets the feedback
message and sets the in-flight flag, then validates the three fields
(an empty string is falsy in JS): on validation failure it shows the
validation message, clears the flag and returns without fetching;
otherwise it fetches, records the outcome's message (clearing the form
on success only) and the `finally` block clears the in-flight flag. -/
def handleSubmit (s : ContactState) (outcome : FetchOutcome) : ContactState × Bool :=
  let s1 : ContactState := { s with submitMessage := none, isSubmitting := true }
  if s.formData.name.isEmpty || s.formData.email.isEmpty || s.formData.message.isEmpty then
    ({ s1 with submitMessage := some validationMsg, isSubmitting := false }, false)
  else
    match outcome with
    | FetchOutcome.okResponse =>
      ({ s1 with submitMessage := some successMsg, formData := emptyForm,
                 isSubmitting := false }, true)
    | FetchOutcome.errorResponse sm =>
      ({ s1 with submitMessage := some (serverOrGeneric sm), isSubmitting := false }, true)
    | FetchOutcome.thrown =>
      ({ s1 with submitMessage := some networkErrorMsg, isSubmitting := false }, true)

/-- Whether the submit control is disabled, from
`disabled=\x7bisSubmitting\x7d` on the submit button of `Contact.tsx`. -/
def submitDisabled (s : ContactState) : Bool := s.isSubmitting

/-- One structured event-description record, from the object literal
built by `generateEventSchema` in `src/components/Planning.tsx`
(name, description, place as both name and address, geo-coordinates,
organizer name and URL). -/
structure EventSchema where
  name : String
  description : String
  placeName : String
  address : String
  latitude : ℚ
  longitude : ℚ
  organizerName : String
  organizerUrl : String
deriving DecidableEq, Repr

/-- The per-entry step of `generateEventSchema`: an entry without a
location maps to `null` (excluded), an entry with a location maps to
exactly one record whose geo-coordinates are that location. -/
def eventRecord (item : PlanningItem) : Option EventSchema :=
  match item.location with
  | none => none
  | some loc =>
    some { name := "BiBim Cuisine à " ++ item.place
           description := "Retrouvez notre foodtruck à " ++ item.place ++
             " le " ++ item.day ++ " de " ++ item.time ++ "."
           placeName := item.place
           address := item.place
           latitude := loc.lat
           longitude := loc.lng
           organizerName := "BiBim Cuisine"
           organizerUrl := "https://www.votre-site.com" }

/-- The record collection built by `generateEventSchema`:
`planningItems.map(...).filter(Boolean)`. -/
def eventSchemaList (items : List PlanningItem) : List EventSchema :=
  (items.map eventRecord).filterMap id

/-- The emitted structured-data script of `generateEventSchema`:
`none` (no script element at all) when the filtered collection is
empty, otherwise the serialized collection. -/
def generateEventSchema (items : List PlanningItem) : Option (List EventSchema) :=
  let events := eventSchemaList items
  if events.length = 0 then none else some events

/-- The visible planning list (`planningItems.map(...)` in the main
return of `Planning.tsx`): one `li` per entry, located or not. -/
def renderedPlanningEntries (items : List PlanningItem) : List String :=
  items.map (fun item => item.day ++ " – " ++ item.place ++ " (" ++ item.time ++ ")")

lemma eventSchemaList_length (items : List PlanningItem) :
    (eventSchemaList items).length =
      (items.filter (fun i => i.location.isSome)).length := by
  induction items with
  | nil => rfl
  | cons i items ih =>
    cases hloc : i.location with
    | none =>
      have hr : eventRecord i = none := by unfold eventRecord; rw [hloc]
      simp only [eventSchemaList, List.map_cons, List.filterMap_cons, hr,
        List.filter_cons, hloc, Option.isSome_none, Bool.false_eq_true,
        if_false, id] at ih ⊢
      exact ih
    | some loc =>
      have hr : eventRecord i = some
        { name := "BiBim Cuisine à " ++ i.place
          description := "Retrouvez notre foodtruck à " ++ i.place ++
            " le " ++ i.day ++ " de " ++ i.time ++ "."
          placeName := i.place
          address := i.place
          latitude := loc.lat
          longitude := loc.lng
          organizerName := "BiBim Cuisine"
          organizerUrl := "https://www.votre-site.com" } := by
        unfold eventRecord; rw [hloc]
      simp only [eventSchemaList, List.map_cons, List.filterMap_cons, hr,
        List.filter_cons, hloc, Option.isSome_some, if_true, id,
        List.length_cons] at ih ⊢
      exact congrArg Nat.succ ih

lemma eventSchemaList_nil_of_unlocated (items : List PlanningItem)
    (h : ∀ i ∈ items, i.location = none) :
    eventSchemaList items = [] := by
  induction items with
  | nil => rfl
  | cons i items ih =>
    have hloc : i.location = none := h i (List.mem_cons_self i items)
    have hr : eventRecord i = none := by unfold eventRecord; rw [hloc]
    simp only [eventSchemaList, List.map_cons, List.filterMap_cons, hr, id]
    exact ih (fun j hj => h j (List.mem_cons_of_mem i hj))

/-- C2. Contact relay endpoint: with a parsed body, a falsy field
(absent or empty — JS truthiness is the endpoint's own presence check)
yields status 400 with the fixed message; with all three fields
present (truthy) a successful delivery yields status 200 with the
success message and a thrown delivery yields status 500 with the
generic message; and every response carries one of the three fixed
string messages in its JSON body. -/
theorem C2_contact_relay_endpoint {ε₁ ε₂ : Type} :
    (∀ (b : ContactBody) (delivery : Except ε₂ Unit),
        (falsy b.name = true ∨ falsy b.email = true ∨ falsy b.message = true) →
        POST (Except.ok b : Except ε₁ ContactBody) delivery =
          ⟨400, "Missing required fields"⟩) ∧
    (∀ b : ContactBody,
        falsy b.name = false → falsy b.email = false → falsy b.message = false →
        POST (Except.ok b : Except ε₁ ContactBody) (Except.ok () : Except ε₂ Unit) =
          ⟨200, "Message sent successfully!"⟩) ∧
    (∀ (b : ContactBody) (e : ε₂),
        falsy b.name = false → falsy b.email = false → falsy b.message = false →
        POST (Except.ok b : Except ε₁ ContactBody) (Except.error e) =
          ⟨500, "Internal server error"⟩) ∧
    (∀ (body : Except ε₁ ContactBody) (delivery : Except ε₂ Unit),
        (POST body delivery).message = "Missing required fields" ∨
        (POST body delivery).message = "Message sent successfully!" ∨
        (POST body delivery).message = "Internal server error") := by
  refine ⟨?_, ?_, ?_, ?_⟩
  · intro b delivery h
    rcases h with h | h | h <;> simp [POST, h]
  · intro b h1 h2 h3
    simp [POST, h1, h2, h3]
  · intro b e h1 h2 h3
    simp [POST, h1, h2, h3]
  · intro body delivery
    cases body with
    | error e => exact Or.inr (Or.inr rfl)
    | ok b =>
      by_cases h : (falsy b.name || falsy b.email || falsy b.message) = true
      · exact Or.inl (by simp [POST, h])
      · cases delivery with
        | ok u => exact Or.inr (Or.inl (by simp [POST, h]))
        | error e => exact Or.inr (Or.inr (by simp [POST, h]))

/-- Witness for C2: the three response branches evaluated on concrete
bodies and delivery outcomes. -/
theorem C2_contact_relay_endpoint_witness :
    POST (Except.ok (⟨none, some "a@b.c", some "bonjour"⟩ : ContactBody) :
        Except Unit ContactBody) (Except.ok () : Except Unit Unit) =
      ⟨400, "Missing required fields"⟩ ∧
    POST (Except.ok (⟨some "Ann", some "a@b.c", some "bonjour"⟩ : ContactBody) :
        Except Unit ContactBody) (Except.ok () : Except Unit Unit) =
      ⟨200, "Message sent successfully!"⟩ ∧
    POST (Except.ok (⟨some "Ann", some "a@b.c", some "bonjour"⟩ : ContactBody) :
        Except Unit ContactBody) (Except.error () : Except Unit Unit) =
      ⟨500, "Internal server error"⟩ :=
  ⟨C2_contact_relay_endpoint.1 _ _ (Or.inl rfl),
   C2_contact_relay_endpoint.2.1 _ rfl rfl rfl,
   C2_contact_relay_endpoint.2.2.1 _ () rfl rfl rfl⟩

/-- C6. Structured event markup: every entry with a location yields
exactly one structured record whose geo-coordinates equal that
location; an entry without a location yields none; the emitted
collection has exactly one record per located entry; the visible
planning list still renders every entry; and when no entry has a
location no structured-data script is emitted at all. -/
theorem C6_structured_event_markup :
    (∀ (item : PlanningItem) (loc : Location), item.location = some loc →
        ∃ r : EventSchema, eventRecord item = some r ∧
          r.latitude = loc.lat ∧ r.longitude = loc.lng) ∧
    (∀ item : PlanningItem, item.location = none → eventRecord item = none) ∧
    (∀ items : List PlanningItem,
        (eventSchemaList items).length =
          (items.filter (fun i => i.location.isSome)).length) ∧
    (∀ items : List PlanningItem,
        (renderedPlanningEntries items).length = items.length) ∧
    (∀ items : List PlanningItem, (∀ i ∈ items, i.location = none) →
        generateEventSchema items = none) := by
  refine ⟨?_, ?_, eventSchemaList_length, ?_, ?_⟩
  · intro item loc h
    unfold eventRecord
    rw [h]
    exact ⟨_, rfl, rfl, rfl⟩
  · intro item h
    unfold eventRecord
    rw [h]
  · intro items
    simp [renderedPlanningEntries]
  · intro items h
    unfold generateEventSchema
    rw [eventSchemaList_nil_of_unlocated items h]
    rfl

/-- Witness for C6: a located entry produces a record with its own
coordinates, an unlocated one is excluded, and a fully unlocated
collection emits no script. -/
theorem C6_structured_event_markup_witness :
    (∃ r : EventSchema, eventRecord lamastreItem = some r ∧
        r.latitude = (44.9865 : ℚ) ∧ r.longitude = (4.5833 : ℚ)) ∧
    eventRecord unlocatedItem = none ∧
    generateEventSchema [unlocatedItem] = none :=
  ⟨C6_structured_event_markup.1 lamastreItem ⟨44.9865, 4.5833⟩ rfl,
   C6_structured_event_markup.2.1 unlocatedItem rfl,
   C6_structured_event_markup.2.2.2.2 [unlocatedItem]
     (by intro i hi; rw [List.mem_singleton] at hi; subst hi; rfl)⟩

/-- C7. Contact form submission guard: submitting with any empty field
issues no network request — the validation message is shown and the
in-flight flag ends up cleared; and the submit control is disabled
exactly while a submission is in flight, so a second concurrent
submission cannot be started. -/
theorem C7_contact_form_submission_guard :
    (∀ (s : ContactState) (outcome : FetchOutcome),
        (s.formData.name.isEmpty = true ∨ s.formData.email.isEmpty = true ∨
          s.formData.message.isEmpty = true) →
        (handleSubmit s outcome).2 = false ∧
        (handleSubmit s outcome).1.submitMessage = some validationMsg ∧
        (handleSubmit s outcome).1.isSubmitting = false) ∧
    (∀ s : ContactState, s.isSubmitting = true → submitDisabled s = true) := by
  refine ⟨?_, fun s h => h⟩
  intro s outcome h
  rcases h with h | h | h <;>
    exact ⟨by simp [handleSubmit, h], by simp [handleSubmit, h],
      by simp [handleSubmit, h]⟩

/-- Witness for C7: a submit with an empty name on a concrete state
issues no request and shows the validation message. -/
theorem C7_contact_form_submission_guard_witness :
    (handleSubmit ⟨⟨"", "a@b.c", "bonjour"⟩, false, none⟩ FetchOutcome.okResponse).2 =
      false ∧
    (handleSubmit ⟨⟨"", "a@b.c", "bonjour"⟩, false, none⟩
        FetchOutcome.okResponse).1.submitMessage = some validationMsg ∧
    (handleSubmit ⟨⟨"", "a@b.c", "bonjour"⟩, false, none⟩
        FetchOutcome.okResponse).1.isSubmitting = false :=
  C7_contact_form_submission_guard.1 _ _ (Or.inl rfl)

/-- C8. Contact form post-submission state: the in-flight flag ends up
cleared in every outcome; with all fields filled, a 2xx response
clears the form and shows the success message, a non-2xx response or a
thrown error leaves the form unchanged and shows either the
server-supplied message (when present and non-empty) or the
appropriate generic message. -/
theorem C8_contact_form_post_submission :
    (∀ (s : ContactState) (outcome : FetchOutcome),
        (handleSubmit s outcome).1.isSubmitting = false) ∧
    (∀ s : ContactState,
        s.formData.name.isEmpty = false → s.formData.email.isEmpty = false →
        s.formData.message.isEmpty = false →
        ((handleSubmit s FetchOutcome.okResponse).1.formData = emptyForm ∧
          (handleSubmit s FetchOutcome.okResponse).1.submitMessage = some successMsg) ∧
        (∀ sm : Option String,
          (handleSubmit s (FetchOutcome.errorResponse sm)).1.formData = s.formData ∧
          (handleSubmit s (FetchOutcome.errorResponse sm)).1.submitMessage =
            some (serverOrGeneric sm)) ∧
        ((handleSubmit s FetchOutcome.thrown).1.formData = s.formData ∧
          (handleSubmit s FetchOutcome.thrown).1.submitMessage =
            some networkErrorMsg)) ∧
    (∀ m : String, m.isEmpty = false → serverOrGeneric (some m) = m) ∧
    (∀ m : String, m.isEmpty = true → serverOrGeneric (some m) = genericErrorMsg) ∧
    serverOrGeneric none = genericErrorMsg := by
  refine ⟨?_, ?_, ?_, ?_, rfl⟩
  · intro s outcome
    by_cases h : (s.formData.name.isEmpty || s.formData.email.isEmpty ||
        s.formData.message.isEmpty) = true
    · simp [handleSubmit, h]
    · cases outcome <;> simp [handleSubmit, h]
  · intro s h1 h2 h3
    refine ⟨⟨?_, ?_⟩, fun sm => ⟨?_, ?_⟩, ?_, ?_⟩ <;>
      simp [handleSubmit, h1, h2, h3]
  · intro m h
    simp [serverOrGeneric, h]
  · intro m h
    simp [serverOrGeneric, h]

/-- Witness for C8: a failed submission on a concrete filled form keeps
the user's input and shows the server-supplied message. -/
theorem C8_contact_form_post_submission_witness :
    (handleSubmit ⟨⟨"Ann", "a@b.c", "bonjour"⟩, true, none⟩
        (FetchOutcome.errorResponse (some "Missing required fields"))).1.formData =
      ⟨"Ann", "a@b.c", "bonjour"⟩ ∧
    (handleSubmit ⟨⟨"Ann", "a@b.c", "bonjour"⟩, true, none⟩
        (FetchOutcome.errorResponse (some "Missing required fields"))).1.submitMessage =
      some (serverOrGeneric (some "Missing required fields")) :=
  ((C8_contact_form_post_submission.2.1
      ⟨⟨"Ann", "a@b.c", "bonjour"⟩, true, none⟩ rfl rfl rfl).2.1
    (some "Missing required fields"))

/-- C9. Error-cause noninterference: two fetch runs of a section
loader that fail with different thrown errors produce identical
states (the same fixed localized message), and two endpoint executions
whose deliveries throw different exceptions produce identical
responses — status 500 with the same generic message when the fields
were present; the cause never reaches the user. -/
theorem C9_error_cause_noninterference {α ε ε₁ ε₂ : Type} :
    (∀ (errMsg : String) (s : SectionState α) (e e' : ε),
        runFetch errMsg s (Except.error e) = runFetch errMsg s (Except.error e')) ∧
    (∀ (body : Except ε₁ ContactBody) (e e' : ε₂),
        POST body (Except.error e) = POST body (Except.error e')) ∧
    (∀ (b : ContactBody) (e : ε₂),
        falsy b.name = false → falsy b.email = false → falsy b.message = false →
        POST (Except.ok b : Except ε₁ ContactBody) (Except.error e) =
          ⟨500, "Internal server error"⟩) := by
  refine ⟨fun errMsg s e e' => rfl, ?_, ?_⟩
  · intro body e e'
    cases body with
    | error pe => rfl
    | ok b => rfl
  · intro b e h1 h2 h3
    simp [POST, h1, h2, h3]

/-- Witness for C9: the endpoint's delivery-failure branch evaluated on
a concrete present-field body. -/
theorem C9_error_cause_noninterference_witness :
    POST (Except.ok (⟨some "Ann", some "a@b.c", some "bonjour"⟩ : ContactBody) :
        Except Unit ContactBody) (Except.error "smtp down" : Except String Unit) =
      ⟨500, "Internal server error"⟩ :=
  (C9_error_cause_noninterference (α := Nat) (ε := Unit)).2.2 _ "smtp down" rfl rfl rfl

/-- C10. A body that fails to parse takes the exception path: the
parse happens inside the `try` block before the missing-field
validation, so the endpoint answers 500 with the generic message, not
400, whatever the delivery outcome would have been. -/
theorem C10_parse_failure_500 {ε₁ ε₂ : Type} :
    ∀ (e : ε₁) (delivery : Except ε₂ Unit),
      POST (Except.error e : Except ε₁ ContactBody) delivery =
        ⟨500, "Internal server error"⟩ ∧
      (POST (Except.error e : Except ε₁ ContactBody) delivery).status = 500 ∧
      (POST (Except.error e : Except ε₁ ContactBody) delivery).status ≠ 400 := by
  intro e delivery
  refine ⟨rfl, rfl, fun h => ?_⟩
  have h5 : (500 : Nat) = 400 := h
  exact absurd h5 (by decide)

end BiBim
